import Mathlib

/-!
Verification of the exchange latency tester (`ms.py`).

The source is a small sequential Python program.  We embed it shallowly:

* Python dicts (the `ProbeResult` records and the `results` mapping) are
  association lists `List (String × PyVal)` in insertion order, which is the
  iteration order of a Python dict.
* Python floats are modelled as `Latency`: a finite rational number of
  milliseconds or the positive-infinity sentinel `float('inf')`.
* The network is an oracle `ProbeOutcome` chosen per exchange: either an HTTP
  response (with the elapsed wall-clock seconds measured by `perf_counter`
  around `requests.get` and the status code) or a raised
  `requests.exceptions.RequestException` with its message.
* Side effects (console `print` calls, `logger` lines, the JSON file write)
  are collected in effect records returned by the embedded functions.
  `logger` calls made inside `test_rest_latency` and `run_tests` are elided:
  no claim concerns them; the warning/error/info lines of `print_results`,
  `save_results_to_file` and `main` are modelled in full.
-/

set_option autoImplicit false

namespace MsPy

/-- A Python float as used by the program: a finite value (as an exact
rational) or the `float('inf')` sentinel.  No NaN or negative infinity is
ever produced by `ms.py`. -/
inductive Latency where
  | finite (ms : ℚ)
  | inf
  deriving DecidableEq

/-- Python values that appear in the program's result dictionaries. -/
inductive PyVal where
  | pstr (s : String)
  | pint (n : Nat)
  | pfloat (x : Latency)
  | pbool (b : Bool)
  | pnone
  deriving DecidableEq

/-- A Python dict with string keys, in insertion order. -/
abbrev PyDict := List (String × PyVal)

/-- The in-memory results mapping: exchange id → its result dict. -/
abbrev PyResults := List (String × PyDict)

/-- `d[k]` lookup / `k in d` membership: the value at key `k`, if present. -/
def dget (d : PyDict) (k : String) : Option PyVal :=
  (d.find? (fun p => p.1 == k)).map (fun p => p.2)

/-- `d[k] = v` assignment for a key that is already present: Python keeps the
key's position and replaces the value.  (`ms.py` only assigns to the existing
`'latency'` key of a copied dict.) -/
def dset (d : PyDict) (k : String) (v : PyVal) : PyDict :=
  d.map (fun p => if p.1 = k then (p.1, v) else p)

/-- `d[k] = v` on a general dict: overwrite in place if the key exists,
append otherwise (Python dict insertion-order semantics). -/
def dictInsert {α : Type} (d : List (String × α)) (k : String) (v : α) :
    List (String × α) :=
  if d.any (fun p => p.1 == k) then
    d.map (fun p => if p.1 == k then (k, v) else p)
  else d ++ [(k, v)]

/-- A line emitted through `logging` with its level. -/
inductive LogLine where
  | info (msg : String)
  | warning (msg : String)
  | error (msg : String)
  deriving DecidableEq

/-- The environment's verdict on one `requests.get` call: a response
(elapsed seconds between the two `perf_counter` reads, and the HTTP status
code) or a raised `requests.exceptions.RequestException` (its `str`). -/
inductive ProbeOutcome where
  | response (elapsedSeconds : ℚ) (status : Nat)
  | exn (msg : String)
  deriving DecidableEq

/-- `time.perf_counter` is monotonic, so the measured elapsed time of a
completed request is non-negative. -/
def outcomeElapsedOk : ProbeOutcome → Prop
  | ProbeOutcome.response e _ => 0 ≤ e
  | ProbeOutcome.exn _ => True

instance : DecidablePred outcomeElapsedOk := by
  intro o
  cases o with
  | response e s => exact inferInstanceAs (Decidable (0 ≤ e))
  | exn m => exact inferInstanceAs (Decidable True)

/-- `ExchangeLatencyTester.test_rest_latency` (ms.py lines 30-70): one timed
GET, classified into the three result dicts the source returns.  The latency
on success is `(end_time - start_time) * 1000` milliseconds. -/
def test_rest_latency (exchange : String) (o : ProbeOutcome) : PyDict :=
  match o with
  | ProbeOutcome.response elapsed status =>
    if status = 200 then
      [("exchange", PyVal.pstr exchange),
       ("test_type", PyVal.pstr "rest"),
       ("latency", PyVal.pfloat (Latency.finite (elapsed * 1000))),
       ("status_code", PyVal.pint status),
       ("success", PyVal.pbool true)]
    else
      [("exchange", PyVal.pstr exchange),
       ("test_type", PyVal.pstr "rest"),
       ("latency", PyVal.pfloat Latency.inf),
       ("status_code", PyVal.pint status),
       ("success", PyVal.pbool false)]
  | ProbeOutcome.exn msg =>
      [("exchange", PyVal.pstr exchange),
       ("test_type", PyVal.pstr "rest"),
       ("latency", PyVal.pfloat Latency.inf),
       ("status_code", PyVal.pnone),
       ("success", PyVal.pbool false),
       ("error", PyVal.pstr msg)]

/-- The fixed exchange list iterated by `run_tests` (ms.py line 78). -/
def exchanges : List String := ["binance", "bybit", "gateio"]

/-- A point during `run_tests` at which a `KeyboardInterrupt` can fire:
during the probe of the exchange at position `i` (before its result is
stored), or during the `time.sleep(1)` that follows the store. -/
inductive InterruptPoint where
  | probe (i : Nat)
  | sleep (i : Nat)
  deriving DecidableEq

/-- The exchange position at which an interrupt point fires. -/
def ipIndex : InterruptPoint → Nat
  | InterruptPoint.probe i => i
  | InterruptPoint.sleep i => i

/-- What a completed `run_tests` produced: the local `results` dict and the
sequence of probes actually issued, in order. -/
structure RunEffect where
  results : PyResults
  probed : List String
  deriving DecidableEq

/-- The loop body of `run_tests` (ms.py lines 78-87) with an interrupt
oracle.  On a `KeyboardInterrupt` the local `results` dict built so far is
returned in the `error` payload: Python discards it, and `self.results` is
never assigned (line 89 is only reached on full completion). -/
def runGo (env : String → ProbeOutcome) (intr : Option InterruptPoint) :
    List String → Nat → PyResults → List String → Except PyResults RunEffect
  | [], _, d, probed => Except.ok { results := d, probed := probed }
  | e :: rest, i, d, probed =>
    if intr = some (InterruptPoint.probe i) then Except.error d
    else
      let r := test_rest_latency e (env e)
      let d' := dictInsert d e r
      if intr = some (InterruptPoint.sleep i) then Except.error d'
      else runGo env intr rest (i + 1) d' (probed ++ [e])

/-- `ExchangeLatencyTester.run_tests` (ms.py lines 72-90): probe the three
exchanges in order, storing each result under its exchange id after the
probe returns.  `Except.error` models a `KeyboardInterrupt` escaping the
loop; its payload is the local dict at that moment (discarded by Python). -/
def run_tests_int (env : String → ProbeOutcome) (intr : Option InterruptPoint) :
    Except PyResults RunEffect :=
  runGo env intr exchanges 0 [] []

/-- Python `'%.2f'`-style rounding: nearest integer, ties to even. -/
def roundHalfEven (q : ℚ) : ℤ :=
  if q - Rat.floor q < 1 / 2 then Rat.floor q
  else if q - Rat.floor q > 1 / 2 then Rat.floor q + 1
  else if Rat.floor q % 2 = 0 then Rat.floor q else Rat.floor q + 1

/-- Zero-padded two-digit rendering of `n < 100`. -/
def twoDigits (n : Nat) : String :=
  if n < 10 then "0" ++ toString n else toString n

/-- The f-string format spec `:.2f` on a finite float value. -/
def format2 (q : ℚ) : String :=
  let c := roundHalfEven (q * 100)
  if c < 0 then
    "-" ++ toString (c.natAbs / 100) ++ "." ++ twoDigits (c.natAbs % 100)
  else
    toString (c.natAbs / 100) ++ "." ++ twoDigits (c.natAbs % 100)

/-- Python truthiness of `result['success']` (`if result['success']:`).
The `none` case would be a `KeyError` in Python; every dict built by
`test_rest_latency` carries the key, so it is unreachable for the reporter's
actual inputs. -/
def pyTruthy : Option PyVal → Bool
  | some (PyVal.pbool b) => b
  | some (PyVal.pint n) => decide (n ≠ 0)
  | some (PyVal.pstr s) => !s.isEmpty
  | some (PyVal.pfloat (Latency.finite q)) => decide (q ≠ 0)
  | some (PyVal.pfloat Latency.inf) => true
  | some PyVal.pnone => false
  | none => false

/-- Python `str()` of a value interpolated into an f-string.  The finite
float case approximates Python's shortest-repr; it is unreachable in the
reporter, which only interpolates ints, `None` and strings this way. -/
def pyStr : PyVal → String
  | PyVal.pstr s => s
  | PyVal.pint n => toString n
  | PyVal.pbool b => if b then "True" else "False"
  | PyVal.pnone => "None"
  | PyVal.pfloat Latency.inf => "inf"
  | PyVal.pfloat (Latency.finite q) => toString q

/-- `f"{result['latency']:.2f}"`: the `:.2f` spec applied to the stored
latency value.  Non-numeric values would raise in Python; the success branch
of the reporter only ever sees a finite float here. -/
def fmtLatVal : Option PyVal → String
  | some (PyVal.pfloat (Latency.finite q)) => format2 q
  | some (PyVal.pfloat Latency.inf) => "inf"
  | some (PyVal.pint n) => format2 (n : ℚ)
  | _ => ""

/-- `f"{result['status_code']}"`: direct indexing.  A missing key would be a
`KeyError`; unreachable, every prober dict carries `status_code`. -/
def pyStrOpt : Option PyVal → String
  | some v => pyStr v
  | none => ""

/-- `result.get('status_code', 'N/A')` rendered into the f-string: the
stored value when the key is present (even when it is `None`), the literal
default `'N/A'` only when the key is absent. -/
def pyGetNA : Option PyVal → String
  | some v => pyStr v
  | none => "N/A"

/-- Python `str.upper()` on the ASCII exchange identifiers: uppercase each
character. -/
def pyUpper (s : String) : String := String.mk (s.data.map Char.toUpper)

/-- `"=" * 80`. -/
def eightyEquals : String := String.mk (List.replicate 80 '=')

/-- The per-exchange block of `print_results` (ms.py lines 102-112), one
string per `print` call. -/
def resultBlock (exchange : String) (r : PyDict) : List String :=
  ("\n" ++ pyUpper exchange ++ " Results:") ::
  (if pyTruthy (dget r "success") then
    ["  Latency: " ++ fmtLatVal (dget r "latency") ++ " ms",
     "  Status Code: " ++ pyStrOpt (dget r "status_code")]
  else
    "  Request failed" ::
    ((match dget r "error" with
      | some v => ["  Error: " ++ pyStr v]
      | none => []) ++
     ["  Status Code: " ++ pyGetNA (dget r "status_code")]))

/-- The observable effects of `print_results`: the `print` calls (one string
per call) and the `logger` lines it emits itself. -/
structure PrintEffect where
  console : List String
  logs : List LogLine
  deriving DecidableEq

/-- `ExchangeLatencyTester.print_results` (ms.py lines 92-112). -/
def print_results (selfResults : PyResults) : PrintEffect :=
  if selfResults.isEmpty then
    { console := [],
      logs := [LogLine.warning "No results to display. Run tests first."] }
  else
    { console :=
        ("\n" ++ eightyEquals) ::
        "LATENCY TEST RESULTS SUMMARY" ::
        eightyEquals ::
        (selfResults.map (fun p => resultBlock p.1 p.2)).flatten,
      logs := [] }

/-- A JSON value as produced by `json.dump`.  `infty` is the non-standard
`Infinity` literal `json.dump` emits for `float('inf')` (never reached after
the substitution step, but the encoding is total). -/
inductive JVal where
  | jstr (s : String)
  | jnum (q : ℚ)
  | jbool (b : Bool)
  | jnull
  | infty
  | jobj (fields : List (String × JVal))

/-- `json.dump`'s encoding of the Python leaf values in the result dicts. -/
def pyValToJson : PyVal → JVal
  | PyVal.pstr s => JVal.jstr s
  | PyVal.pint n => JVal.jnum n
  | PyVal.pbool b => JVal.jbool b
  | PyVal.pnone => JVal.jnull
  | PyVal.pfloat (Latency.finite q) => JVal.jnum q
  | PyVal.pfloat Latency.inf => JVal.infty

/-- ms.py lines 128-130: `result.copy()`, then replace the `latency` value
by the string `'inf'` when it compares equal to `float('inf')`.  Only the
`pfloat inf` value does (Python `==` against `float('inf')` is false for
every other value in a result dict). -/
def toSerializable (r : PyDict) : PyDict :=
  if dget r "latency" = some (PyVal.pfloat Latency.inf) then
    dset r "latency" (PyVal.pstr "inf")
  else r

/-- ms.py lines 120-122: the filename, derived from the
`%Y%m%d_%H%M%S`-formatted current time when none is given. -/
def fnameResolved (filename : Option String) (nowStamp : String) : String :=
  match filename with
  | some f => f
  | none => "latency_test_results_" ++ nowStamp ++ ".json"

/-- The JSON object passed to `json.dump` (ms.py lines 134-137). -/
def savePayload (selfResults : PyResults) (nowIso : String) : JVal :=
  JVal.jobj
    [("timestamp", JVal.jstr nowIso),
     ("results", JVal.jobj
       ((selfResults.map (fun p => (p.1, toSerializable p.2))).map
         (fun p => (p.1, JVal.jobj (p.2.map (fun q => (q.1, pyValToJson q.2)))))))]

/-- The observable effects of `save_results_to_file`: the file write (name,
dumped JSON value, `indent` argument), the `logger` lines, the `results`
mapping after the call, and whether an exception escaped the method. -/
structure SaveEffect where
  fileWrite : Option (String × JVal × Nat)
  logs : List LogLine
  resultsAfter : PyResults
  raised : Bool

/-- `ExchangeLatencyTester.save_results_to_file` (ms.py lines 114-140).
`io` is the environment's verdict on the `open`/`json.dump` block: `ok` if
the write succeeds, `error e` if it raises with message `str(e)`.  The
`except Exception` handler catches any such failure, so the method never
raises. -/
def save_results_to_file (selfResults : PyResults) (filename : Option String)
    (nowStamp nowIso : String) (io : Except String Unit) : SaveEffect :=
  if selfResults.isEmpty then
    { fileWrite := none,
      logs := [LogLine.warning "No results to save."],
      resultsAfter := selfResults,
      raised := false }
  else
    let fname := fnameResolved filename nowStamp
    match io with
    | Except.ok _ =>
      { fileWrite := some (fname, savePayload selfResults nowIso, 2),
        logs := [LogLine.info ("Results saved to " ++ fname)],
        resultsAfter := selfResults,
        raised := false }
    | Except.error e =>
      { fileWrite := none,
        logs := [LogLine.error ("Failed to save results: " ++ e)],
        resultsAfter := selfResults,
        raised := false }

/-- The observable effects of one execution of `main`. -/
structure MainEffect where
  finalResults : PyResults
  console : List String
  fileWrite : Option (String × JVal × Nat)
  logs : List LogLine
  tracebackPrinted : Bool
  uncaught : Bool

/-- `main` (ms.py lines 142-161): run the tests, print, save.  A
`KeyboardInterrupt` escaping `run_tests` is caught by the `except
KeyboardInterrupt` handler, which logs one info line; `print_results` and
`save_results_to_file` are then never reached, and `tester.results` still
holds the empty dict set by `__init__` (the `self.results = results`
assignment on line 89 was skipped).  No traceback is printed on that path
(the `traceback.print_exc()` call belongs to the generic handler). -/
def mainRun (env : String → ProbeOutcome) (intr : Option InterruptPoint)
    (nowStamp nowIso : String) (io : Except String Unit) : MainEffect :=
  match run_tests_int env intr with
  | Except.error _ =>
    { finalResults := [],
      console := [],
      fileWrite := none,
      logs := [LogLine.info "Test interrupted by user"],
      tracebackPrinted := false,
      uncaught := false }
  | Except.ok re =>
    let pe := print_results re.results
    let se := save_results_to_file re.results none nowStamp nowIso io
    { finalResults := se.resultsAfter,
      console := pe.console,
      fileWrite := se.fileWrite,
      logs := pe.logs ++ se.logs,
      tracebackPrinted := false,
      uncaught := false }

/-! ## Dictionary lemmas -/

theorem dget_cons (a : String × PyVal) (d : PyDict) (k : String) :
    dget (a :: d) k = if a.1 = k then some a.2 else dget d k := by
  by_cases h : a.1 = k
  · simp [dget, List.find?, h]
  · have hb : (a.1 == k) = false := beq_eq_false_iff_ne.mpr h
    simp [dget, List.find?, hb, h]

theorem dset_cons (a : String × PyVal) (d : PyDict) (k : String) (v : PyVal) :
    dset (a :: d) k v = (if a.1 = k then (a.1, v) else a) :: dset d k v := rfl

theorem dget_dset_self (d : PyDict) (k : String) (v : PyVal)
    (h : (dget d k).isSome) : dget (dset d k v) k = some v := by
  induction d with
  | nil => simp [dget] at h
  | cons a d ih =>
    by_cases hak : a.1 = k
    · rw [dset_cons, if_pos hak, dget_cons, if_pos hak]
    · rw [dset_cons, if_neg hak, dget_cons, if_neg hak]
      rw [dget_cons, if_neg hak] at h
      exact ih h

theorem dget_dset_ne (d : PyDict) (k k' : String) (v : PyVal)
    (h : k' ≠ k) : dget (dset d k v) k' = dget d k' := by
  induction d with
  | nil => rfl
  | cons a d ih =>
    by_cases hak : a.1 = k
    · have hne : ¬a.1 = k' := by
        rw [hak]
        exact fun hkk => h hkk.symm
      rw [dset_cons, if_pos hak, dget_cons, dget_cons, if_neg hne, if_neg hne, ih]
    · rw [dset_cons, if_neg hak, dget_cons, dget_cons]
      by_cases hk' : a.1 = k'
      · rw [if_pos hk', if_pos hk']
      · rw [if_neg hk', if_neg hk', ih]

/-! ## Claim theorems -/

/-- C1: for every `ProbeResult` returned by the prober (under the
monotonic-clock fact that the measured elapsed time is non-negative), the
three conditions are equivalent: `success` is `True`, `status_code` equals
`200`, and `latency` is a finite non-negative number of milliseconds. -/
theorem c1_success_iff_status200_iff_finite_latency (exchange : String)
    (o : ProbeOutcome) (h : outcomeElapsedOk o) :
    (dget (test_rest_latency exchange o) "success" = some (PyVal.pbool true) ↔
      dget (test_rest_latency exchange o) "status_code" = some (PyVal.pint 200)) ∧
    (dget (test_rest_latency exchange o) "success" = some (PyVal.pbool true) ↔
      ∃ q : ℚ, dget (test_rest_latency exchange o) "latency" =
          some (PyVal.pfloat (Latency.finite q)) ∧ 0 ≤ q) := by
  cases o with
  | response e s =>
    have he : (0 : ℚ) ≤ e := h
    by_cases hs : s = 200
    · subst hs
      exact ⟨⟨fun _ => rfl, fun _ => rfl⟩,
        ⟨fun _ => ⟨e * 1000, rfl, mul_nonneg he (by norm_num)⟩, fun _ => rfl⟩⟩
    · have hd : test_rest_latency exchange (ProbeOutcome.response e s) =
          [("exchange", PyVal.pstr exchange),
           ("test_type", PyVal.pstr "rest"),
           ("latency", PyVal.pfloat Latency.inf),
           ("status_code", PyVal.pint s),
           ("success", PyVal.pbool false)] := by
        simp only [test_rest_latency]
        rw [if_neg hs]
      rw [hd]
      refine ⟨⟨fun hx => ?_, fun hx => ?_⟩, ⟨fun hx => ?_, fun hx => ?_⟩⟩
      · have h2 : (some (PyVal.pbool false) : Option PyVal) = some (PyVal.pbool true) := hx
        simp at h2
      · have h2 : (some (PyVal.pint s) : Option PyVal) = some (PyVal.pint 200) := hx
        have h3 : s = 200 := by simpa using h2
        exact absurd h3 hs
      · have h2 : (some (PyVal.pbool false) : Option PyVal) = some (PyVal.pbool true) := hx
        simp at h2
      · obtain ⟨q, hq, _⟩ := hx
        have h2 : (some (PyVal.pfloat Latency.inf) : Option PyVal) =
            some (PyVal.pfloat (Latency.finite q)) := hq
        simp at h2
  | exn msg =>
    refine ⟨⟨fun hx => ?_, fun hx => ?_⟩, ⟨fun hx => ?_, fun hx => ?_⟩⟩
    · have h2 : (some (PyVal.pbool false) : Option PyVal) = some (PyVal.pbool true) := hx
      simp at h2
    · have h2 : (some PyVal.pnone : Option PyVal) = some (PyVal.pint 200) := hx
      simp at h2
    · have h2 : (some (PyVal.pbool false) : Option PyVal) = some (PyVal.pbool true) := hx
      simp at h2
    · obtain ⟨q, hq, _⟩ := hx
      have h2 : (some (PyVal.pfloat Latency.inf) : Option PyVal) =
          some (PyVal.pfloat (Latency.finite q)) := hq
      simp at h2

/-- Witness for C1 at a concrete successful probe. -/
theorem c1_witness :
    outcomeElapsedOk (ProbeOutcome.response (1/8) 200) ∧
    ((dget (test_rest_latency "binance" (ProbeOutcome.response (1/8) 200)) "success" =
        some (PyVal.pbool true) ↔
      dget (test_rest_latency "binance" (ProbeOutcome.response (1/8) 200)) "status_code" =
        some (PyVal.pint 200)) ∧
     (dget (test_rest_latency "binance" (ProbeOutcome.response (1/8) 200)) "success" =
        some (PyVal.pbool true) ↔
      ∃ q : ℚ, dget (test_rest_latency "binance" (ProbeOutcome.response (1/8) 200)) "latency" =
          some (PyVal.pfloat (Latency.finite q)) ∧ 0 ≤ q)) :=
  ⟨by norm_num [outcomeElapsedOk],
   c1_success_iff_status200_iff_finite_latency "binance" _ (by norm_num [outcomeElapsedOk])⟩

/-- C3: every failed `ProbeResult` — whether from a non-200 status or a
transport exception — carries the infinity-sentinel latency. -/
theorem c3_failure_latency_is_inf (exchange : String) (o : ProbeOutcome)
    (h : dget (test_rest_latency exchange o) "success" = some (PyVal.pbool false)) :
    dget (test_rest_latency exchange o) "latency" = some (PyVal.pfloat Latency.inf) := by
  cases o with
  | response e s =>
    by_cases hs : s = 200
    · subst hs
      have h2 : (some (PyVal.pbool true) : Option PyVal) = some (PyVal.pbool false) := h
      simp at h2
    · simp only [test_rest_latency]
      rw [if_neg hs]
      rfl
  | exn msg => rfl

/-- Witness for C3 at a concrete 503 response (Scenario B of the spec). -/
theorem c3_witness :
    dget (test_rest_latency "bybit" (ProbeOutcome.response 0 503)) "success" =
      some (PyVal.pbool false) ∧
    dget (test_rest_latency "bybit" (ProbeOutcome.response 0 503)) "latency" =
      some (PyVal.pfloat Latency.inf) :=
  ⟨rfl, c3_failure_latency_is_inf "bybit" _ rfl⟩

/-- C4 counterexample: on a transport failure the `status_code` field is
not absent from the returned dict — the key is present, holding Python
`None` (serialized as JSON `null`). -/
theorem c4_counterexample :
    dget (test_rest_latency "gateio" (ProbeOutcome.exn "timed out")) "status_code" ≠ none ∧
    dget (test_rest_latency "gateio" (ProbeOutcome.exn "timed out")) "status_code" =
      some PyVal.pnone :=
  ⟨by decide, rfl⟩

/-- C4 (amended): on a transport-level failure the returned `ProbeResult`
has `success = False`, the infinity-sentinel latency, a `status_code` field
that is present but holds `None` (no integer status), and `error` set to the
stringified exception. -/
theorem c4_transport_failure_shape (exchange msg : String) :
    dget (test_rest_latency exchange (ProbeOutcome.exn msg)) "success" =
      some (PyVal.pbool false) ∧
    dget (test_rest_latency exchange (ProbeOutcome.exn msg)) "latency" =
      some (PyVal.pfloat Latency.inf) ∧
    dget (test_rest_latency exchange (ProbeOutcome.exn msg)) "status_code" =
      some PyVal.pnone ∧
    dget (test_rest_latency exchange (ProbeOutcome.exn msg)) "error" =
      some (PyVal.pstr msg) :=
  ⟨rfl, rfl, rfl, rfl⟩

/-- C5: an uninterrupted run probes binance, bybit and gateio in that fixed
order and produces exactly one result per exchange, keyed by exchange id, in
insertion order. -/
theorem c5_run_order_and_cardinality (env : String → ProbeOutcome) :
    run_tests_int env none = Except.ok
      { results :=
          [("binance", test_rest_latency "binance" (env "binance")),
           ("bybit", test_rest_latency "bybit" (env "bybit")),
           ("gateio", test_rest_latency "gateio" (env "gateio"))],
        probed := ["binance", "bybit", "gateio"] } := rfl

/-- C6: on an empty results set, `print_results` emits no console output and
exactly one warning log line, and `save_results_to_file` writes no file and
emits exactly one warning log line. -/
theorem c6_empty_results_noop (selfResults : PyResults)
    (h : selfResults.isEmpty = true) (filename : Option String)
    (nowStamp nowIso : String) (io : Except String Unit) :
    print_results selfResults =
      { console := [],
        logs := [LogLine.warning "No results to display. Run tests first."] } ∧
    save_results_to_file selfResults filename nowStamp nowIso io =
      { fileWrite := none,
        logs := [LogLine.warning "No results to save."],
        resultsAfter := selfResults,
        raised := false } := by
  constructor
  · unfold print_results
    rw [if_pos h]
  · unfold save_results_to_file
    rw [if_pos h]

/-- Witness for C6 on the empty results set. -/
theorem c6_witness :
    ([] : PyResults).isEmpty = true ∧
    (print_results [] =
      { console := [],
        logs := [LogLine.warning "No results to display. Run tests first."] } ∧
    save_results_to_file [] none "20240101_120000" "2024-01-01T12:00:00" (Except.ok ()) =
      { fileWrite := none,
        logs := [LogLine.warning "No results to save."],
        resultsAfter := [],
        raised := false }) :=
  ⟨rfl, c6_empty_results_noop [] rfl none "20240101_120000" "2024-01-01T12:00:00" (Except.ok ())⟩

/-- C7: when the write raises, `save_results_to_file` logs the error and
returns normally without raising, writes nothing, and leaves the in-memory
results mapping untouched. -/
theorem c7_save_io_failure (selfResults : PyResults) (filename : Option String)
    (nowStamp nowIso e : String) (h : selfResults.isEmpty = false) :
    save_results_to_file selfResults filename nowStamp nowIso (Except.error e) =
      { fileWrite := none,
        logs := [LogLine.error ("Failed to save results: " ++ e)],
        resultsAfter := selfResults,
        raised := false } := by
  have hne : ¬selfResults.isEmpty = true := by simp [h]
  unfold save_results_to_file
  rw [if_neg hne]

/-- Witness for C7 at a concrete non-empty results set and a failing write. -/
theorem c7_witness :
    ([("binance", test_rest_latency "binance" (ProbeOutcome.exn "x"))] :
        PyResults).isEmpty = false ∧
    save_results_to_file [("binance", test_rest_latency "binance" (ProbeOutcome.exn "x"))]
        none "20240101_120000" "2024-01-01T12:00:00"
        (Except.error "Permission denied") =
      { fileWrite := none,
        logs := [LogLine.error ("Failed to save results: " ++ "Permission denied")],
        resultsAfter := [("binance", test_rest_latency "binance" (ProbeOutcome.exn "x"))],
        raised := false } :=
  ⟨rfl, c7_save_io_failure _ none "20240101_120000" "2024-01-01T12:00:00"
    "Permission denied" rfl⟩

/-- C10: saving never mutates the in-memory results: the infinity
substitution happens on a copy, so after any save each failed result in the
mapping still holds the numeric infinity sentinel while its serialized copy
holds the string `"inf"`. -/
theorem c10_save_frame (selfResults : PyResults) (filename : Option String)
    (nowStamp nowIso : String) (io : Except String Unit) (k : String) (r : PyDict)
    (hmem : (k, r) ∈ selfResults)
    (hfail : dget r "success" = some (PyVal.pbool false))
    (hinf : dget r "latency" = some (PyVal.pfloat Latency.inf)) :
    (save_results_to_file selfResults filename nowStamp nowIso io).resultsAfter =
      selfResults ∧
    (k, r) ∈ (save_results_to_file selfResults filename nowStamp nowIso io).resultsAfter ∧
    dget r "latency" = some (PyVal.pfloat Latency.inf) ∧
    dget r "latency" ≠ some (PyVal.pstr "inf") ∧
    dget (toSerializable r) "latency" = some (PyVal.pstr "inf") := by
  have hafter :
      (save_results_to_file selfResults filename nowStamp nowIso io).resultsAfter =
        selfResults := by
    unfold save_results_to_file
    by_cases hemp : selfResults.isEmpty = true
    · rw [if_pos hemp]
    · rw [if_neg hemp]
      cases io <;> rfl
  refine ⟨hafter, by rw [hafter]; exact hmem, hinf, ?_, ?_⟩
  · rw [hinf]
    simp
  · unfold toSerializable
    rw [if_pos hinf]
    refine dget_dset_self r "latency" (PyVal.pstr "inf") ?_
    rw [hinf]
    rfl

/-- Witness for C10 at a concrete failed result. -/
theorem c10_witness :
    (("gateio", test_rest_latency "gateio" (ProbeOutcome.exn "boom")) ∈
      ([("gateio", test_rest_latency "gateio" (ProbeOutcome.exn "boom"))] : PyResults)) ∧
    dget (test_rest_latency "gateio" (ProbeOutcome.exn "boom")) "success" =
      some (PyVal.pbool false) ∧
    dget (test_rest_latency "gateio" (ProbeOutcome.exn "boom")) "latency" =
      some (PyVal.pfloat Latency.inf) ∧
    ((save_results_to_file [("gateio", test_rest_latency "gateio" (ProbeOutcome.exn "boom"))]
        (some "out.json") "20240101_120000" "2024-01-01T12:00:00"
        (Except.ok ())).resultsAfter =
      [("gateio", test_rest_latency "gateio" (ProbeOutcome.exn "boom"))] ∧
    ("gateio", test_rest_latency "gateio" (ProbeOutcome.exn "boom")) ∈
      (save_results_to_file [("gateio", test_rest_latency "gateio" (ProbeOutcome.exn "boom"))]
        (some "out.json") "20240101_120000" "2024-01-01T12:00:00"
        (Except.ok ())).resultsAfter ∧
    dget (test_rest_latency "gateio" (ProbeOutcome.exn "boom")) "latency" =
      some (PyVal.pfloat Latency.inf) ∧
    dget (test_rest_latency "gateio" (ProbeOutcome.exn "boom")) "latency" ≠
      some (PyVal.pstr "inf") ∧
    dget (toSerializable (test_rest_latency "gateio" (ProbeOutcome.exn "boom"))) "latency" =
      some (PyVal.pstr "inf")) :=
  ⟨List.mem_cons_self _ _, rfl, rfl,
   c10_save_frame _ (some "out.json") "20240101_120000" "2024-01-01T12:00:00"
     (Except.ok ()) "gateio" _ (List.mem_cons_self _ _) rfl rfl⟩

/-- C2: on a successful save of a non-empty set, the file receives a single
JSON object with exactly the keys `timestamp` and `results` (exchange id →
result object), dumped with `indent=2`; per result, an infinity-sentinel
latency is replaced by the string `"inf"`, any other latency is left alone,
and every field other than `latency` serializes as-is. -/
theorem c2_save_serialization (selfResults : PyResults)
    (h : selfResults.isEmpty = false) (filename : Option String)
    (nowStamp nowIso : String) (k : String) (r : PyDict)
    (hmem : (k, r) ∈ selfResults) (k' : String) (hk' : k' ≠ "latency") :
    (save_results_to_file selfResults filename nowStamp nowIso (Except.ok ())).fileWrite =
      some (fnameResolved filename nowStamp,
        JVal.jobj
          [("timestamp", JVal.jstr nowIso),
           ("results", JVal.jobj
             ((selfResults.map (fun p => (p.1, toSerializable p.2))).map
               (fun p => (p.1, JVal.jobj (p.2.map (fun q => (q.1, pyValToJson q.2)))))))],
        2) ∧
    (dget r "latency" = some (PyVal.pfloat Latency.inf) →
      dget (toSerializable r) "latency" = some (PyVal.pstr "inf")) ∧
    (dget r "latency" ≠ some (PyVal.pfloat Latency.inf) → toSerializable r = r) ∧
    dget (toSerializable r) k' = dget r k' := by
  have hne : ¬selfResults.isEmpty = true := by simp [h]
  refine ⟨?_, fun hinfv => ?_, fun hninf => ?_, ?_⟩
  · unfold save_results_to_file
    rw [if_neg hne]
    rfl
  · unfold toSerializable
    rw [if_pos hinfv]
    refine dget_dset_self r "latency" (PyVal.pstr "inf") ?_
    rw [hinfv]
    rfl
  · unfold toSerializable
    rw [if_neg hninf]
  · unfold toSerializable
    by_cases hc : dget r "latency" = some (PyVal.pfloat Latency.inf)
    · rw [if_pos hc]
      exact dget_dset_ne r "latency" k' (PyVal.pstr "inf") hk'
    · rw [if_neg hc]

/-- Witness for C2 at a two-exchange set with one success and one failure. -/
theorem c2_witness :
    ([("binance", test_rest_latency "binance" (ProbeOutcome.response 0 200)),
      ("gateio", test_rest_latency "gateio" (ProbeOutcome.exn "boom"))] :
        PyResults).isEmpty = false ∧
    (("gateio", test_rest_latency "gateio" (ProbeOutcome.exn "boom")) ∈
      ([("binance", test_rest_latency "binance" (ProbeOutcome.response 0 200)),
        ("gateio", test_rest_latency "gateio" (ProbeOutcome.exn "boom"))] : PyResults)) ∧
    ("status_code" : String) ≠ "latency" ∧
    ((save_results_to_file
        [("binance", test_rest_latency "binance" (ProbeOutcome.response 0 200)),
         ("gateio", test_rest_latency "gateio" (ProbeOutcome.exn "boom"))]
        none "20240101_120000" "2024-01-01T12:00:00" (Except.ok ())).fileWrite =
      some (fnameResolved none "20240101_120000",
        JVal.jobj
          [("timestamp", JVal.jstr "2024-01-01T12:00:00"),
           ("results", JVal.jobj
             ((([("binance", test_rest_latency "binance" (ProbeOutcome.response 0 200)),
                 ("gateio", test_rest_latency "gateio" (ProbeOutcome.exn "boom"))] :
                   PyResults).map (fun p => (p.1, toSerializable p.2))).map
               (fun p => (p.1, JVal.jobj (p.2.map (fun q => (q.1, pyValToJson q.2)))))))],
        2) ∧
    (dget (test_rest_latency "gateio" (ProbeOutcome.exn "boom")) "latency" =
        some (PyVal.pfloat Latency.inf) →
      dget (toSerializable (test_rest_latency "gateio" (ProbeOutcome.exn "boom"))) "latency" =
        some (PyVal.pstr "inf")) ∧
    (dget (test_rest_latency "gateio" (ProbeOutcome.exn "boom")) "latency" ≠
        some (PyVal.pfloat Latency.inf) →
      toSerializable (test_rest_latency "gateio" (ProbeOutcome.exn "boom")) =
        test_rest_latency "gateio" (ProbeOutcome.exn "boom")) ∧
    dget (toSerializable (test_rest_latency "gateio" (ProbeOutcome.exn "boom")))
        "status_code" =
      dget (test_rest_latency "gateio" (ProbeOutcome.exn "boom")) "status_code") :=
  ⟨rfl, List.mem_cons_of_mem _ (List.mem_cons_self _ _), by decide,
   c2_save_serialization
     [("binance", test_rest_latency "binance" (ProbeOutcome.response 0 200)),
      ("gateio", test_rest_latency "gateio" (ProbeOutcome.exn "boom"))]
     rfl none "20240101_120000" "2024-01-01T12:00:00" "gateio"
     (test_rest_latency "gateio" (ProbeOutcome.exn "boom"))
     (List.mem_cons_of_mem _ (List.mem_cons_self _ _)) "status_code" (by decide)⟩

/-- The per-exchange console block as the amended C8 claim states it: on
success the latency with two decimal places and the status code; on a non-200
response a failure marker and the status code; on a transport failure a
failure marker, the error text, and the line `Status Code: None` (the stored
`None` value rendered — not the `'N/A'` marker). -/
def specBlock (exchange : String) (o : ProbeOutcome) : List String :=
  ("\n" ++ pyUpper exchange ++ " Results:") ::
  (match o with
   | ProbeOutcome.response e s =>
     if s = 200 then
       ["  Latency: " ++ format2 (e * 1000) ++ " ms",
        "  Status Code: " ++ toString s]
     else
       ["  Request failed",
        "  Status Code: " ++ toString s]
   | ProbeOutcome.exn m =>
     ["  Request failed",
      "  Error: " ++ m,
      "  Status Code: None"])

/-- The results mapping produced by probing a given list of exchanges. -/
def probeAll (rs : List (String × ProbeOutcome)) : PyResults :=
  rs.map (fun p => (p.1, test_rest_latency p.1 p.2))

theorem resultBlock_probe (ex : String) (o : ProbeOutcome) :
    resultBlock ex (test_rest_latency ex o) = specBlock ex o := by
  cases o with
  | response e s =>
    by_cases hs : s = 200
    · subst hs
      rfl
    · have hd : test_rest_latency ex (ProbeOutcome.response e s) =
          [("exchange", PyVal.pstr ex),
           ("test_type", PyVal.pstr "rest"),
           ("latency", PyVal.pfloat Latency.inf),
           ("status_code", PyVal.pint s),
           ("success", PyVal.pbool false)] := by
        simp only [test_rest_latency]
        rw [if_neg hs]
      rw [hd]
      simp only [specBlock]
      rw [if_neg hs]
      rfl
  | exn m => rfl

/-- C8 (amended): the reporter prints the header block followed by one block
per result in iteration order; on success the block shows the latency with
two decimal places and the status code; on failure it shows a failure
marker, the error text when present, and the status code — rendered as
`None` when the stored value is `None` (the `'N/A'` marker is unreachable
for prober results, whose `status_code` key is always present). -/
theorem c8_report_blocks (rs : List (String × ProbeOutcome)) (h : rs ≠ []) :
    print_results (probeAll rs) =
      { console :=
          ("\n" ++ eightyEquals) ::
          "LATENCY TEST RESULTS SUMMARY" ::
          eightyEquals ::
          (rs.map (fun p => specBlock p.1 p.2)).flatten,
        logs := [] } := by
  have hne : ¬(probeAll rs).isEmpty = true := by
    cases rs with
    | nil => exact absurd rfl h
    | cons a t => simp [probeAll]
  unfold print_results
  rw [if_neg hne]
  have hmap : (probeAll rs).map (fun p => resultBlock p.1 p.2) =
      rs.map (fun p => specBlock p.1 p.2) := by
    unfold probeAll
    rw [List.map_map]
    refine List.map_congr_left ?_
    intro a _
    exact resultBlock_probe a.1 a.2
  rw [hmap]

/-- Witness for C8 at a concrete one-exchange run. -/
theorem c8_witness :
    ([("binance", ProbeOutcome.response 0 200)] ≠
      ([] : List (String × ProbeOutcome))) ∧
    print_results (probeAll [("binance", ProbeOutcome.response 0 200)]) =
      { console :=
          ("\n" ++ eightyEquals) ::
          "LATENCY TEST RESULTS SUMMARY" ::
          eightyEquals ::
          ([("binance", ProbeOutcome.response 0 200)].map
            (fun p => specBlock p.1 p.2)).flatten,
        logs := [] } :=
  ⟨by simp, c8_report_blocks [("binance", ProbeOutcome.response 0 200)] (by simp)⟩

/-- C8 counterexample: on a transport failure the reporter does not print
any `'N/A'` (not-available) marker — the `status_code` key is present with
`None`, so the printed line is `Status Code: None`. -/
theorem c8_counterexample :
    resultBlock "gateio" (test_rest_latency "gateio" (ProbeOutcome.exn "timed out")) =
      ["\nGATEIO Results:",
       "  Request failed",
       "  Error: timed out",
       "  Status Code: None"] ∧
    "  Status Code: N/A" ∉
      resultBlock "gateio" (test_rest_latency "gateio" (ProbeOutcome.exn "timed out")) :=
  ⟨rfl, by decide⟩

/-- The number of probes that have fully completed when an interrupt fires
at the given point. -/
def completedCount : InterruptPoint → Nat
  | InterruptPoint.probe i => i
  | InterruptPoint.sleep i => i + 1

/-- C9: a `KeyboardInterrupt` at any point of the run aborts the remaining
iterations, is caught and logged by `main` (no traceback, no uncaught
exception), reaches no reporting or persistence, and leaves no
partially-completed probe's result anywhere: the local dict discarded at the
interrupt holds exactly the fully completed probes, and `tester.results`
still holds the empty mapping from `__init__`. -/
theorem c9_interrupt_clean (env : String → ProbeOutcome) (p : InterruptPoint)
    (nowStamp nowIso : String) (io : Except String Unit) (h : ipIndex p < 3) :
    run_tests_int env (some p) =
      Except.error ((exchanges.take (completedCount p)).map
        (fun e => (e, test_rest_latency e (env e)))) ∧
    mainRun env (some p) nowStamp nowIso io =
      { finalResults := [],
        console := [],
        fileWrite := none,
        logs := [LogLine.info "Test interrupted by user"],
        tracebackPrinted := false,
        uncaught := false } := by
  cases p with
  | probe i =>
    simp only [ipIndex] at h
    interval_cases i <;> exact ⟨rfl, rfl⟩
  | sleep i =>
    simp only [ipIndex] at h
    interval_cases i <;> exact ⟨rfl, rfl⟩

/-- Witness for C9: an interrupt during the first sleep. -/
theorem c9_witness :
    ipIndex (InterruptPoint.sleep 0) < 3 ∧
    (run_tests_int (fun _ => ProbeOutcome.exn "boom")
        (some (InterruptPoint.sleep 0)) =
      Except.error ((exchanges.take (completedCount (InterruptPoint.sleep 0))).map
        (fun e => (e, test_rest_latency e ((fun _ => ProbeOutcome.exn "boom") e)))) ∧
    mainRun (fun _ => ProbeOutcome.exn "boom") (some (InterruptPoint.sleep 0))
        "20240101_120000" "2024-01-01T12:00:00" (Except.ok ()) =
      { finalResults := [],
        console := [],
        fileWrite := none,
        logs := [LogLine.info "Test interrupted by user"],
        tracebackPrinted := false,
        uncaught := false }) :=
  ⟨by decide,
   c9_interrupt_clean (fun _ => ProbeOutcome.exn "boom") (InterruptPoint.sleep 0)
     "20240101_120000" "2024-01-01T12:00:00" (Except.ok ()) (by decide)⟩

end MsPy
